import Mathlib

/-!
Verification development for the project-sage repository.

We give a shallow embedding, in Lean, of the core data model and operations
of the repository (configuration resolution, the model manager, the answer
synthesizer, the file processor and the vector store), translated from the
Python sources, and prove properties about them.

Conventions of the embedding:
* Python strings are Lean `String`; Python `Optional[str]` is `Option String`.
* Python truthiness of a string is `strTruthy` (non-empty); truthiness of an
  optional string field is `optTruthy`.  Pydantic `SecretStr` values define
  `__len__`, so an empty secret is falsy; we model a secret by its underlying
  string and its truthiness by non-emptiness.
* Calls into external network clients and libraries are abstracted as
  parameters (`Except String _` results for fallible calls), so that the
  control flow of the repository code around them is modelled exactly.
-/

/-- Python truthiness of a string: non-empty strings are truthy. -/
def strTruthy (s : String) : Bool := !s.isEmpty

/-- Python truthiness of an optional string field: `None` and the empty
string are falsy. -/
def optTruthy : Option String → Bool
  | none => false
  | some s => strTruthy s

/-- The fields of `SageConfig` (src/sage/config.py) that the verified
operations read or write.  Secrets are modelled by their underlying string
value (`api_key`) or optional string value (the per-provider keys). -/
structure SageConfig where
  api_key : String
  llm_provider : String
  llm_model : String
  index_provider : Option String
  index_model : Option String
  chat_provider : Option String
  chat_model : Option String
  google_api_key : Option String
  anthropic_api_key : Option String
  openai_api_key : Option String
  ollama_url : Option String
  current_chat_provider : Option String
  current_chat_model : Option String
deriving DecidableEq

/-- `SageConfig.get_index_provider_model` (src/sage/config.py lines 53-58):
the dedicated index pair when both fields are truthy, else the legacy pair. -/
def SageConfig.get_index_provider_model (c : SageConfig) : String × String :=
  if optTruthy c.index_provider && optTruthy c.index_model then
    (c.index_provider.getD "", c.index_model.getD "")
  else
    (c.llm_provider, c.llm_model)

/-- `SageConfig.get_chat_provider_model` (src/sage/config.py lines 60-69):
runtime override first, then the dedicated chat pair, then the legacy pair. -/
def SageConfig.get_chat_provider_model (c : SageConfig) : String × String :=
  if optTruthy c.current_chat_provider && optTruthy c.current_chat_model then
    (c.current_chat_provider.getD "", c.current_chat_model.getD "")
  else if optTruthy c.chat_provider && optTruthy c.chat_model then
    (c.chat_provider.getD "", c.chat_model.getD "")
  else
    (c.llm_provider, c.llm_model)

/-- The embedding backends that `VectorStore._get_embeddings` can construct
(src/sage/vector_store.py lines 34-82), one constructor per branch. -/
inductive Embeddings where
  | google (model key : String)
  | openaiNoKey (model : String)
  | openaiWithKey (model key : String)
  | ollama (model baseUrl : String)
  | huggingface (modelName : String)
deriving DecidableEq

/-- `VectorStore._get_embeddings` (src/sage/vector_store.py lines 34-82).
`hasOllama` and `hasHF` model the import-time flags `HAS_OLLAMA` and
`HAS_HUGGINGFACE`; `ollamaCtorOk` models whether the guarded construction of
the Ollama embeddings object succeeds (the code wraps it in a handler that
falls through to the HuggingFace branch).  A raised `ValueError` is modelled
as `Except.error`. -/
def get_embeddings (hasOllama hasHF ollamaCtorOk : Bool) (c : SageConfig) :
    Except String Embeddings :=
  let api_key := c.api_key
  if c.llm_provider = "google" then
    .ok (.google "models/text-embedding-004" api_key)
  else if c.llm_provider = "anthropic" then
    .ok (.openaiNoKey "text-embedding-3-small")
  else if c.llm_provider = "openai" then
    .ok (.openaiWithKey "text-embedding-3-small" api_key)
  else if c.llm_provider = "ollama" then
    let base_url := c.ollama_url.getD "http://localhost:11434"
    if hasOllama && ollamaCtorOk then
      .ok (.ollama "nomic-embed-text" base_url)
    else if hasHF then
      .ok (.huggingface "sentence-transformers/all-MiniLM-L6-v2")
    else
      .error "Ollama embeddings require either Ollama or HuggingFace"
  else
    .error ("Unsupported provider: " ++ c.llm_provider)

/-- `ModelManager.AVAILABLE_MODELS` (src/sage/model_manager.py lines 19-58),
transcribed verbatim as an association list. -/
def AVAILABLE_MODELS : List (String × List String) :=
  [("google",
     ["gemini-1.5-flash",
      "gemini-1.5-pro",
      "gemini-2.0-flash-exp",
      "gemini-exp-1206"]),
   ("anthropic",
     ["claude-3-haiku-20240307",
      "claude-3-sonnet-20240229",
      "claude-3-opus-20240229",
      "claude-3-5-sonnet-20241022",
      "claude-3-5-haiku-20241022",
      "claude-4-latest",
      "claude-4-preview"]),
   ("openai",
     ["gpt-3.5-turbo",
      "gpt-4",
      "gpt-4-turbo",
      "gpt-4-turbo-preview",
      "gpt-4o",
      "gpt-4o-mini",
      "gpt-5-preview",
      "gpt-5-turbo",
      "o1-preview",
      "o1-mini"]),
   ("ollama",
     ["llama3.1:8b", "llama3.1:70b", "llama3.1:405b",
      "llama3.2:1b", "llama3.2:3b",
      "mixtral:8x7b", "mixtral:8x22b",
      "codellama:7b", "codellama:13b", "codellama:34b",
      "deepseek-coder:6.7b", "deepseek-coder:33b",
      "qwen2.5:7b", "qwen2.5:14b", "qwen2.5:32b",
      "phi3:mini", "phi3:medium",
      "gemma2:2b", "gemma2:9b", "gemma2:27b",
      "mistral:7b", "neural-chat:7b", "orca-mini:3b", "vicuna:7b"])]

/-- `ModelManager._has_api_key` (src/sage/model_manager.py lines 89-102).
`hasOllama` models the import-time flag `HAS_OLLAMA`.  Truthiness of a
pydantic secret is non-emptiness of the underlying string. -/
def has_api_key (hasOllama : Bool) (c : SageConfig) (provider : String) : Bool :=
  if provider = "google" then
    optTruthy c.google_api_key
      || (c.llm_provider = "google" && strTruthy c.api_key)
  else if provider = "anthropic" then
    optTruthy c.anthropic_api_key
      || (c.llm_provider = "anthropic" && strTruthy c.api_key)
  else if provider = "openai" then
    optTruthy c.openai_api_key
      || (c.llm_provider = "openai" && strTruthy c.api_key)
  else if provider = "ollama" then
    hasOllama
  else
    false

/-- The mutable state of a `ModelManager` (src/sage/model_manager.py): the
configuration it owns, the current provider/model pair, and the keys of the
cached clients in `active_clients`. -/
structure MMState where
  config : SageConfig
  current_provider : String
  current_model : String
  active_clients : List String
deriving DecidableEq

/-- `ModelManager.__init__` (src/sage/model_manager.py lines 60-67): the
current pair is seeded from `config.get_chat_provider_model()` and the client
cache starts empty. -/
def mmInit (c : SageConfig) : MMState :=
  { config := c,
    current_provider := c.get_chat_provider_model.1,
    current_model := c.get_chat_provider_model.2,
    active_clients := [] }

/-- `ModelManager.switch_model` (src/sage/model_manager.py lines 125-158).
Each `raise` inside the `try` block is caught by the handler, which returns
`False`; since every raise happens before any assignment, a failed switch
returns the state unchanged.  A successful switch updates the current pair,
the config runtime-override fields, and evicts the cached client for the
target key. -/
def switch_model (hasOllama : Bool) (s : MMState) (provider model : String) :
    Bool × MMState :=
  match AVAILABLE_MODELS.lookup provider with
  | none => (false, s)
  | some models =>
    if models.contains model = false ∧ provider ≠ "ollama" then
      (false, s)
    else if has_api_key hasOllama s.config provider = false then
      (false, s)
    else
      (true,
       { config :=
           { s.config with
             current_chat_provider := some provider,
             current_chat_model := some model },
         current_provider := provider,
         current_model := model,
         active_clients := s.active_clients.erase (provider ++ ":" ++ model) })

/-- `ModelManager.get_current_model_info` (src/sage/model_manager.py lines
160-162). -/
def get_current_model_info (s : MMState) : String × String :=
  (s.current_provider, s.current_model)

/-- A retrieved langchain `Document` as consumed by
`LLMClient.answer_question` (src/sage/llm_client.py): its text and the
metadata keys the method reads.  A missing `source` key is `none`. -/
structure RDoc where
  page_content : String
  source : Option String
  chunk_index : Nat
  total_chunks : Nat
deriving DecidableEq

/-- The value `doc.metadata.get` reads for the source key, defaulting to Unknown. -/
def docSource (d : RDoc) : String := d.source.getD "Unknown"

/-- One insertion into a Python `set`, modelled on the list of elements in
insertion order: adding an element already present changes nothing. -/
def addToSet (s : List String) (x : String) : List String :=
  if x ∈ s then s else s ++ [x]

/-- The contents of the `sources` set built by `answer_question` (lines
99-110 of src/sage/llm_client.py), carried in first-insertion order. -/
def collectSources (docs : List RDoc) : List String :=
  docs.foldl (fun s d => addToSet s (docSource d)) []

/-- The provenance header emitted for document number `i` (1-based), line
106 of src/sage/llm_client.py. -/
def docHeader (i : Nat) (d : RDoc) : String :=
  "[Document " ++ toString i ++ " - " ++ docSource d ++ " (chunk "
    ++ toString (d.chunk_index + 1) ++ "/" ++ toString d.total_chunks ++ ")]"

/-- The `context_parts` list built by the enumeration loop of
`answer_question`: header, content, and an empty line per document. -/
def contextParts : Nat → List RDoc → List String
  | _, [] => []
  | i, d :: ds => docHeader i d :: d.page_content :: "" :: contextParts (i + 1) ds

/-- The joined context block passed to the chain. -/
def contextBlock (docs : List RDoc) : String :=
  String.intercalate "\n" (contextParts 1 docs)

/-- The result dictionary of `answer_question`.  The success branch of the
Python code emits no `error` key; reading the missing key yields a falsy
value, modelled as `error := false`. -/
structure AnswerResult where
  answer : String
  sources : List String
  documents_used : Nat
  error : Bool
deriving DecidableEq

/-- `LLMClient.answer_question` (src/sage/llm_client.py lines 95-135).
`chainInvoke context question` abstracts `self.chain.invoke(...)` followed by
the projection of the text field of the response: `Except.error e` models any raised
exception with message `e` (`str(e)`).  `setOrder` abstracts the conversion
`list(sources)` of the Python `set` to a list: CPython enumerates a set of
strings in hash-table order, which is unspecified by the language and varies
with hash randomization, so the model takes the enumeration order as a
parameter, constrained in the theorems to be a permutation of the elements. -/
def answer_question (chainInvoke : String → String → Except String String)
    (setOrder : List String → List String)
    (question : String) (docs : List RDoc) : AnswerResult :=
  let context := contextBlock docs
  let sources := collectSources docs
  match chainInvoke context question with
  | .ok text =>
      { answer := text,
        sources := setOrder sources,
        documents_used := docs.length,
        error := false }
  | .error e =>
      { answer := "Error generating answer: " ++ e,
        sources := setOrder sources,
        documents_used := docs.length,
        error := true }

/-- A filesystem path, modelled as its list of components (what
`pathlib.Path.parts` yields; for an absolute POSIX path the first component
is the root). -/
abbrev PathParts := List String

/-- `Path.relative_to`: succeeds with the remaining components when the
project path is a leading segment of the file path, and raises otherwise
(modelled as `none`). -/
def relativeTo (fileParts projParts : PathParts) : Option PathParts :=
  if projParts.isPrefixOf fileParts then
    some (fileParts.drop projParts.length)
  else
    none

/-- The context mapping returned by `FileProcessor._extract_folder_context`
(src/sage/file_processor.py lines 45-96).  The Python dictionary carries the
`phase_description` key only when the main phase is truthy, hence the
`Option` field. -/
structure FolderContext where
  project_category : String
  main_phase : String
  sub_category : String
  specific_area : String
  folder_hierarchy : String
  phase_description : Option String
deriving DecidableEq

/-- The unknown sentinel mapping returned from the handler of
`_extract_folder_context` (lines 88-96). -/
def unknownFolderContext : FolderContext :=
  { project_category := "unknown",
    main_phase := "unknown",
    sub_category := "unknown",
    specific_area := "unknown",
    folder_hierarchy := "unknown",
    phase_description := some "Unknown project phase" }

/-- The static phase-description lookup (lines 79-83): three known phase
folder names expand to prose, anything else passes through unchanged. -/
def phaseDescTable (p : String) : String :=
  if p = "01.Origination&Dev" then "Project Development and Origination Phase"
  else if p = "02.Execution" then "Project Construction and Execution Phase"
  else if p = "03.Operation" then "Project Operation and Maintenance Phase"
  else p

/-- `FileProcessor._extract_folder_context` (src/sage/file_processor.py lines
45-96): the components strictly between project root and filename feed the
four levels, missing levels stay empty, and a failing `relative_to` lands in
the handler that returns the sentinel. -/
def extract_folder_context (fileParts projParts : PathParts) : FolderContext :=
  match relativeTo fileParts projParts with
  | none => unknownFolderContext
  | some rel =>
    let path_parts := rel.dropLast
    let main_phase := path_parts.getD 0 ""
    { project_category := path_parts.getD 1 "",
      main_phase := main_phase,
      sub_category := path_parts.getD 2 "",
      specific_area := path_parts.getD 3 "",
      folder_hierarchy :=
        if path_parts.isEmpty then "root"
        else String.intercalate " > " path_parts,
      phase_description :=
        if strTruthy main_phase then some (phaseDescTable main_phase)
        else none }

/-- `FileProcessor.SUPPORTED_EXTENSIONS` (src/sage/file_processor.py lines
27-29). -/
def SUPPORTED_EXTENSIONS : List String :=
  [".pdf", ".docx", ".pptx", ".xlsx", ".txt", ".md"]

/-- Whether `rglob` with one of the supported-extension patterns yields this
path: the name ends with one of the extensions (suffix test on the character
sequence). -/
def isSupportedFile (p : String) : Bool :=
  SUPPORTED_EXTENSIONS.any (fun ext => ext.data.isSuffixOf p.data)

/-- Python substring membership `needle in hay` on strings. -/
def strContains (hay needle : String) : Bool :=
  hay.data.tails.any (fun t => needle.data.isPrefixOf t)

/-- A source file on disk: its path (as a string, the form the metadata
cache is keyed by) and its byte content. -/
structure SrcFile where
  path : String
  content : String
deriving DecidableEq

/-- The per-file reprocessing condition of `find_files` (line 136 of
src/sage/file_processor.py): `force`, or the path is absent from the loaded
metadata, or the recorded hash differs from the current content hash. -/
def needs_processing (force : Bool) (metadata : List (String × String))
    (h : String → String) (f : SrcFile) : Bool :=
  force
    || match metadata.lookup f.path with
       | none => true
       | some v => v != h f.content

/-- `FileProcessor.find_files` (src/sage/file_processor.py lines 121-139).
`files` is the directory scan of the project tree, `storedMeta` the
persisted metadata cache mapping a file path to its recorded content hash,
and `h` the content-hash function (`get_file_hash`, an MD5 digest, kept
abstract).  With `force` the cache is not even loaded (line 124), and the
per-file condition short-circuits on `force` anyway.  The path filters are
those of lines 126-130: a supported-extension pattern matched the path, and
the path does not contain `.sage`. -/
def find_files (files : List SrcFile) (storedMeta : List (String × String))
    (force : Bool) (h : String → String) : List SrcFile :=
  let metadata := if force then [] else storedMeta
  files.filter (fun f =>
    isSupportedFile f.path
      && !strContains f.path ".sage"
      && needs_processing force metadata h f)

/-- Python str.strip with no argument: drop leading and trailing whitespace
characters. -/
def pyStrip (s : String) : String :=
  String.mk (((s.data.dropWhile Char.isWhitespace).reverse.dropWhile
    Char.isWhitespace).reverse)

/-- The plausibility test of `_process_pdf` (line 226): the space-joined
element texts, stripped, are shorter than 100 characters. -/
def shortText (els : List String) : Bool :=
  (pyStrip (String.intercalate " " els)).length < 100

/-- `FileProcessor._process_pdf` (src/sage/file_processor.py lines 214-250).
`direct` abstracts the first `partition_pdf` call (auto strategy) and `ocr`
the OCR-only `partition_pdf` call; elements are carried as their `str(el)`
texts.  The OCR-only call appears twice in the source — once inside the
`try` when the direct text is implausibly short, once in the fallback
handler — and both occurrences denote the same invocation, so a short direct
text whose OCR re-extraction raises flows through the handler into the
fallback OCR, fails again, and yields the empty element list. -/
def process_pdf (direct ocr : Except String (List String)) : List String :=
  match direct with
  | .ok els =>
    if shortText els then
      match ocr with
      | .ok els2 => els2
      | .error _ => []
    else
      els
  | .error _ =>
    match ocr with
    | .ok els2 => els2
    | .error _ => []

/-- How `process_file` obtained its elements: a PDF goes through
`_process_pdf` with its two extraction attempts, any other supported type
through its format-specific partition call, which may raise. -/
inductive Extraction where
  | pdf (direct ocr : Except String (List String))
  | other (result : Except String (List String))

/-- The element list reaching line 162 of `process_file`, as an exception
result: `_process_pdf` never raises, a format-specific partition call may. -/
def extractElements : Extraction → Except String (List String)
  | .pdf direct ocr => .ok (process_pdf direct ocr)
  | .other r => r

/-- The context header interpolated at lines 170-178 of `process_file`
(the f-string, including its leading and trailing newlines).  A missing
`phase_description` key reads as Unknown via `dict.get`. -/
def contextHeader (ctx : FolderContext) (fileName : String) : String :=
  "\nDocument Context:\n- Project Phase: " ++ ctx.phase_description.getD "Unknown"
    ++ "\n- Category: " ++ ctx.project_category
    ++ "\n- Location: " ++ ctx.folder_hierarchy
    ++ "\n- File: " ++ fileName
    ++ "\n\nContent:\n"

/-- Modelled from the spec: the external text splitter (the Chunker of spec
section 4.2, `RecursiveCharacterTextSplitter` from langchain, not part of
this repository).  Per the spec, empty input yields an empty chunk sequence
and input within one chunk size is not split; the splitter also strips
chunk whitespace, so a whitespace-only input likewise yields no chunks.
This model is used only at inputs that fit in a single chunk. -/
def splitShortText (t : String) : List String :=
  if (pyStrip t).isEmpty then [] else [pyStrip t]

/-- `FileProcessor.process_file` (src/sage/file_processor.py lines 141-212),
projected to the chunk texts it returns.  `fileParts` is the path of the
processed file and `projParts` the optional `project_path` argument (the
repository callers pass `None`, taking the empty context header).  A raised
extraction error is caught by the surrounding handler, which returns the
empty list (line 210-212). -/
def process_file (ex : Extraction) (fileParts : PathParts)
    (projParts : Option PathParts) : List String :=
  match extractElements ex with
  | .error _ => []
  | .ok els =>
    let original_text := String.intercalate "\n\n" els
    let context_header :=
      match projParts with
      | none => ""
      | some pp =>
          contextHeader (extract_folder_context fileParts pp)
            (fileParts.getLastD "")
    splitShortText (context_header ++ original_text)

/-- Modelled from the spec: similarity search of the external persisted
collection (Chroma, not part of this repository); per spec sections 3 and
4.5 it returns up to `k` stored chunks ordered by embedding distance,
most-similar first.  `dist` abstracts the query/chunk distance. -/
def similaritySearchTopK (coll : List RDoc) (dist : String → RDoc → Int)
    (query : String) (k : Nat) : List RDoc :=
  (((coll.map (fun d => (dist query d, d))).mergeSort
      (fun a b => decide (a.1 ≤ b.1))).map Prod.snd).take k

/-- The state of a `VectorStore` (src/sage/vector_store.py): whether
`self.vectorstore` is set (`opened`), and the contents of the persisted
on-disk collection the handle refers to. -/
structure VectorStoreState where
  opened : Bool
  persisted : List RDoc
deriving DecidableEq

/-- `VectorStore.initialize` (lines 84-93): opens or creates the persistent
collection; the stored chunks are untouched. -/
def VectorStoreState.initializeStore (s : VectorStoreState) : VectorStoreState :=
  { s with opened := true }

/-- The lazy-initialization preamble `if not self.vectorstore:
self.initialize()` shared by `add_documents`, `search`, `search_with_score`
and `get_document_count`. -/
def ensureInit (s : VectorStoreState) : VectorStoreState :=
  if s.opened then s else s.initializeStore

/-- `VectorStore.clear` (lines 103-110): only when a handle is open does it
fetch all ids and delete them; with no handle it falls straight through,
touching nothing. -/
def VectorStoreState.clear (s : VectorStoreState) : VectorStoreState :=
  if s.opened then { s with persisted := [] } else s

/-- `VectorStore.add_documents` (lines 95-101): lazily initializes, then
appends; no-op on an empty batch. -/
def VectorStoreState.add_documents (s : VectorStoreState) (docs : List RDoc) :
    VectorStoreState :=
  let s2 := ensureInit s
  if docs.isEmpty then s2 else { s2 with persisted := s2.persisted ++ docs }

/-- `VectorStore.search` (lines 112-117): lazily initializes, then performs
similarity search over the collection. -/
def VectorStoreState.search (s : VectorStoreState) (dist : String → RDoc → Int)
    (query : String) (k : Nat) : List RDoc × VectorStoreState :=
  let s2 := ensureInit s
  (similaritySearchTopK s2.persisted dist query k, s2)

/-- `VectorStore.search_with_score` (lines 119-124): the score-annotated
variant, same ordering. -/
def VectorStoreState.search_with_score (s : VectorStoreState)
    (dist : String → RDoc → Int) (query : String) (k : Nat) :
    List (RDoc × Int) × VectorStoreState :=
  let s2 := ensureInit s
  ((((s2.persisted.map (fun d => (dist query d, d))).mergeSort
      (fun a b => decide (a.1 ≤ b.1))).map (fun p => (p.2, p.1))).take k, s2)

/-- `VectorStore.get_document_count` (lines 126-132): lazily initializes,
then counts the stored chunks. -/
def VectorStoreState.get_document_count (s : VectorStoreState) :
    Nat × VectorStoreState :=
  let s2 := ensureInit s
  (s2.persisted.length, s2)

/-- A concrete base configuration: legacy google provider, no dedicated
index/chat fields, no runtime override. -/
def cfgBase : SageConfig :=
  { api_key := "k0",
    llm_provider := "google",
    llm_model := "gemini-1.5-flash",
    index_provider := none,
    index_model := none,
    chat_provider := none,
    chat_model := none,
    google_api_key := none,
    anthropic_api_key := none,
    openai_api_key := none,
    ollama_url := none,
    current_chat_provider := none,
    current_chat_model := none }

/-- `cfgBase` with a dedicated indexing pair pointing at openai while the
legacy provider stays google. -/
def cfgIndexOpenai : SageConfig :=
  { cfgBase with
    index_provider := some "openai",
    index_model := some "text-embedding-3-small" }

/-- `cfgIndexOpenai` with the legacy provider also switched to openai; its
indexing resolution is identical to that of `cfgIndexOpenai`. -/
def cfgIndexOpenaiLegacy : SageConfig :=
  { cfgIndexOpenai with llm_provider := "openai" }

/-- A concrete retrieved-document list whose distinct sources, in order of
first occurrence, are b.txt then a.txt. -/
def docsTwoSources : List RDoc :=
  [{ page_content := "chunk one", source := some "b.txt",
     chunk_index := 0, total_chunks := 2 },
   { page_content := "chunk two", source := some "a.txt",
     chunk_index := 0, total_chunks := 1 },
   { page_content := "chunk three", source := some "b.txt",
     chunk_index := 1, total_chunks := 2 }]

theorem mem_foldl_addToSet (docs : List RDoc) (acc : List String) (y : String) :
    (y ∈ docs.foldl (fun s d => addToSet s (docSource d)) acc) ↔
      y ∈ acc ∨ ∃ d ∈ docs, docSource d = y := by
  induction docs generalizing acc with
  | nil => simp
  | cons d ds ih =>
    rw [List.foldl_cons, ih]
    unfold addToSet
    by_cases h : docSource d ∈ acc
    · rw [if_pos h]
      constructor
      · rintro (hy | ⟨d2, hd2, hsrc⟩)
        · exact Or.inl hy
        · exact Or.inr ⟨d2, List.mem_cons_of_mem d hd2, hsrc⟩
      · rintro (hy | ⟨d2, hd2, hsrc⟩)
        · exact Or.inl hy
        · rcases List.mem_cons.mp hd2 with h2 | h2
          · exact Or.inl (hsrc ▸ h2 ▸ h)
          · exact Or.inr ⟨d2, h2, hsrc⟩
    · rw [if_neg h]
      constructor
      · rintro (hy | ⟨d2, hd2, hsrc⟩)
        · rcases List.mem_append.mp hy with h2 | h2
          · exact Or.inl h2
          · have h3 : y = docSource d := by simpa using h2
            exact Or.inr ⟨d, List.mem_cons_self d ds, h3.symm⟩
        · exact Or.inr ⟨d2, List.mem_cons_of_mem d hd2, hsrc⟩
      · rintro (hy | ⟨d2, hd2, hsrc⟩)
        · exact Or.inl (List.mem_append.mpr (Or.inl hy))
        · rcases List.mem_cons.mp hd2 with h2 | h2
          · exact Or.inl (List.mem_append.mpr (Or.inr (by simp [← hsrc, h2])))
          · exact Or.inr ⟨d2, h2, hsrc⟩

theorem mem_collectSources (docs : List RDoc) (y : String) :
    y ∈ collectSources docs ↔ ∃ d ∈ docs, docSource d = y := by
  rw [collectSources, mem_foldl_addToSet]
  simp

theorem nodup_foldl_addToSet (docs : List RDoc) (acc : List String)
    (hacc : acc.Nodup) :
    (docs.foldl (fun s d => addToSet s (docSource d)) acc).Nodup := by
  induction docs generalizing acc with
  | nil => simpa
  | cons d ds ih =>
    rw [List.foldl_cons]
    refine ih _ ?_
    unfold addToSet
    by_cases h : docSource d ∈ acc
    · rwa [if_pos h]
    · rw [if_neg h]
      simp [List.nodup_append, hacc, h]

theorem nodup_collectSources (docs : List RDoc) : (collectSources docs).Nodup :=
  nodup_foldl_addToSet docs [] List.nodup_nil

theorem collectSources_ne_nil (docs : List RDoc) (hne : docs ≠ []) :
    collectSources docs ≠ [] := by
  cases docs with
  | nil => exact absurd rfl hne
  | cons d ds =>
    have : docSource d ∈ collectSources (d :: ds) :=
      (mem_collectSources _ _).mpr ⟨d, List.mem_cons_self d ds, rfl⟩
    exact List.ne_nil_of_mem this

theorem needs_processing_false_iff (storedMeta : List (String × String))
    (h : String → String) (f : SrcFile) :
    needs_processing false storedMeta h f = true ↔
      storedMeta.lookup f.path ≠ some (h f.content) := by
  unfold needs_processing
  cases hl : storedMeta.lookup f.path with
  | none => simp [hl]
  | some v => simp [hl, bne_iff_ne]

theorem mem_find_files (files : List SrcFile)
    (storedMeta : List (String × String)) (force : Bool) (h : String → String)
    (f : SrcFile) :
    f ∈ find_files files storedMeta force h ↔
      f ∈ files ∧ isSupportedFile f.path = true ∧
        strContains f.path ".sage" = false ∧
        (force = true ∨ storedMeta.lookup f.path ≠ some (h f.content)) := by
  cases force with
  | true =>
    simp [find_files, List.mem_filter, needs_processing, and_assoc]
  | false =>
    simp only [find_files, if_neg (by simp : ¬(false = true)), List.mem_filter,
      Bool.and_eq_true, Bool.not_eq_true', needs_processing_false_iff, and_assoc]
    simp

/-- Claim C8.  Search on an empty store: for every query, every k and every
distance function, searching a freshly initialized collection that holds
zero chunks returns the empty sequence (the embedded operation is total, so
no exception is possible); the same holds when the handle has not even been
opened yet, since `search` lazily initializes it. -/
theorem c8_search_empty_store (dist : String → RDoc → Int) (q : String)
    (k : Nat) :
    ((VectorStoreState.initializeStore { opened := false, persisted := [] }).search
        dist q k).1 = [] ∧
    (VectorStoreState.search { opened := false, persisted := [] }
        dist q k).1 = [] := by
  constructor <;>
    simp [VectorStoreState.search, VectorStoreState.initializeStore, ensureInit,
      similaritySearchTopK]

/-- Claim C10.  Calling `clear` on a store whose handle has not been opened
in the current session removes nothing: the state (and so the persisted
collection) is returned untouched, and a subsequent `get_document_count`
still reports the surviving chunks; by contrast `search`,
`search_with_score`, `add_documents` and `get_document_count` all lazily
open the handle when it is not yet open. -/
theorem c10_clear_requires_initialize (ps : List RDoc)
    (dist : String → RDoc → Int) (q : String) (k : Nat) (docs : List RDoc) :
    (VectorStoreState.clear { opened := false, persisted := ps } =
      { opened := false, persisted := ps }) ∧
    ((VectorStoreState.clear { opened := false, persisted := ps
        }).get_document_count).1 = ps.length ∧
    ((VectorStoreState.search { opened := false, persisted := ps }
        dist q k).2).opened = true ∧
    ((VectorStoreState.search_with_score { opened := false, persisted := ps }
        dist q k).2).opened = true ∧
    (VectorStoreState.add_documents { opened := false, persisted := ps }
        docs).opened = true ∧
    (((VectorStoreState.get_document_count { opened := false, persisted := ps
        }).2)).opened = true := by
  refine ⟨?_, ?_, ?_, ?_, ?_, ?_⟩ <;>
    first
      | (simp [VectorStoreState.clear, VectorStoreState.get_document_count,
          VectorStoreState.search, VectorStoreState.search_with_score,
          VectorStoreState.add_documents, ensureInit,
          VectorStoreState.initializeStore]
         done)
      | (simp only [VectorStoreState.add_documents, ensureInit,
          VectorStoreState.initializeStore]
         by_cases hd : docs.isEmpty <;> simp [hd])

/-- Claim C5.  Provider/model resolution chain: `get_chat_provider_model`
returns the runtime override pair when both override fields are set (truthy,
in the Python sense: non-None and non-empty), else the configured chat pair
when both are set, else the legacy pair; `get_index_provider_model` returns
the dedicated index pair when both are set, else the legacy pair; and when
all dedicated fields are unset, both chat and index resolve exactly to the
legacy single provider/model. -/
theorem c5_resolution_chain (c : SageConfig) :
    (optTruthy c.current_chat_provider = true →
       optTruthy c.current_chat_model = true →
       c.get_chat_provider_model =
         (c.current_chat_provider.getD "", c.current_chat_model.getD "")) ∧
    ((optTruthy c.current_chat_provider = false ∨
        optTruthy c.current_chat_model = false) →
       optTruthy c.chat_provider = true → optTruthy c.chat_model = true →
       c.get_chat_provider_model =
         (c.chat_provider.getD "", c.chat_model.getD "")) ∧
    ((optTruthy c.current_chat_provider = false ∨
        optTruthy c.current_chat_model = false) →
       (optTruthy c.chat_provider = false ∨ optTruthy c.chat_model = false) →
       c.get_chat_provider_model = (c.llm_provider, c.llm_model)) ∧
    (optTruthy c.index_provider = true → optTruthy c.index_model = true →
       c.get_index_provider_model =
         (c.index_provider.getD "", c.index_model.getD "")) ∧
    ((optTruthy c.index_provider = false ∨ optTruthy c.index_model = false) →
       c.get_index_provider_model = (c.llm_provider, c.llm_model)) ∧
    (c.current_chat_provider = none → c.current_chat_model = none →
     c.chat_provider = none → c.chat_model = none →
     c.index_provider = none → c.index_model = none →
       c.get_chat_provider_model = (c.llm_provider, c.llm_model) ∧
       c.get_index_provider_model = (c.llm_provider, c.llm_model)) := by
  refine ⟨?_, ?_, ?_, ?_, ?_, ?_⟩
  · intro h1 h2
    simp [SageConfig.get_chat_provider_model, h1, h2]
  · rintro (h | h) h3 h4 <;>
      simp [SageConfig.get_chat_provider_model, h, h3, h4]
  · rintro (h | h) (h2 | h2) <;>
      simp [SageConfig.get_chat_provider_model, h, h2]
  · intro h1 h2
    simp [SageConfig.get_index_provider_model, h1, h2]
  · rintro (h | h) <;> simp [SageConfig.get_index_provider_model, h]
  · intro h1 h2 h3 h4 h5 h6
    constructor
    · simp [SageConfig.get_chat_provider_model, h1, h2, h3, h4, optTruthy]
    · simp [SageConfig.get_index_provider_model, h5, h6, optTruthy]

/-- Witness for C5: on `cfgBase`, where every dedicated field is unset, both
resolutions give the legacy google pair; with a truthy runtime override both
set, the chat resolution returns the override. -/
theorem c5_resolution_chain_witness :
    cfgBase.get_chat_provider_model = ("google", "gemini-1.5-flash") ∧
    cfgBase.get_index_provider_model = ("google", "gemini-1.5-flash") ∧
    ({ cfgBase with
        current_chat_provider := some "anthropic",
        current_chat_model := some "claude-3-opus-20240229"
      } : SageConfig).get_chat_provider_model =
      ("anthropic", "claude-3-opus-20240229") :=
  ⟨((c5_resolution_chain cfgBase).2.2.2.2.2 rfl rfl rfl rfl rfl rfl).1,
   ((c5_resolution_chain cfgBase).2.2.2.2.2 rfl rfl rfl rfl rfl rfl).2,
   (c5_resolution_chain _).1 (by decide) (by decide)⟩

/-- Counterexample for claim C4.  Two configurations whose dedicated
indexing pair is set identically (both resolve indexing to openai) receive
different embedding backends, because `VectorStore._get_embeddings` branches
on the legacy `llm_provider` field and never consults
`get_index_provider_model`: with legacy provider google the store embeds
with the google backend even though the indexing provider is openai.  Hence
the embedding backend is not resolved from the indexing provider. -/
theorem c4_embeddings_counterexample :
    cfgIndexOpenai.get_index_provider_model =
      ("openai", "text-embedding-3-small") ∧
    cfgIndexOpenaiLegacy.get_index_provider_model =
      ("openai", "text-embedding-3-small") ∧
    get_embeddings false false false cfgIndexOpenai =
      .ok (.google "models/text-embedding-004" "k0") ∧
    get_embeddings false false false cfgIndexOpenaiLegacy =
      .ok (.openaiWithKey "text-embedding-3-small" "k0") ∧
    (Embeddings.google "models/text-embedding-004" "k0" ≠
      Embeddings.openaiWithKey "text-embedding-3-small" "k0") :=
  ⟨rfl, rfl, rfl, rfl, by decide⟩

/-- Claim C4, amended.  The embedding backend chosen by the Vector Store is
resolved from the legacy `llm_provider` field alone (together with the
legacy credential and the Ollama URL): any two configurations agreeing on
those three fields receive the same backend, whatever their chat provider,
chat model, runtime overrides — and whatever their dedicated
index_provider/index_model.  In particular changing the chat provider or
model never changes which embedding backend the store uses. -/
theorem c4_embeddings_legacy_only (c1 c2 : SageConfig)
    (hasOllama hasHF ollamaCtorOk : Bool)
    (hp : c1.llm_provider = c2.llm_provider)
    (hk : c1.api_key = c2.api_key)
    (hu : c1.ollama_url = c2.ollama_url) :
    get_embeddings hasOllama hasHF ollamaCtorOk c1 =
      get_embeddings hasOllama hasHF ollamaCtorOk c2 := by
  simp only [get_embeddings, hp, hk, hu]

/-- Witness for C4 (amended): two concrete configurations differing in chat
provider, chat model, runtime override and dedicated index pair, but
agreeing on the legacy fields, get the same backend. -/
theorem c4_embeddings_legacy_only_witness :
    get_embeddings false false false cfgBase =
      get_embeddings false false false
        { cfgBase with
          chat_provider := some "anthropic",
          chat_model := some "claude-4-latest",
          current_chat_provider := some "openai",
          current_chat_model := some "gpt-4o",
          index_provider := some "openai",
          index_model := some "text-embedding-3-small" } :=
  c4_embeddings_legacy_only _ _ false false false rfl rfl rfl

/-- Claim C7.  Folder-context extraction: for a file whose components
between the project root and the filename are p0, p1, p2, p3, ..., the
extractor maps position 0 to main_phase, 1 to project_category, 2 to
sub_category and 3 to specific_area, with missing levels mapped to the
empty string; the scenario path root/01.Origination&Dev/ACES/file.pdf
yields the expected mapping with empty sub_category and a non-empty phase
description; and any path-resolution failure returns the unknown sentinel
mapping. -/
theorem c7_folder_context :
    (∀ (root ps : PathParts) (fn : String),
       (extract_folder_context (root ++ (ps ++ [fn])) root).main_phase =
           ps.getD 0 "" ∧
       (extract_folder_context (root ++ (ps ++ [fn])) root).project_category =
           ps.getD 1 "" ∧
       (extract_folder_context (root ++ (ps ++ [fn])) root).sub_category =
           ps.getD 2 "" ∧
       (extract_folder_context (root ++ (ps ++ [fn])) root).specific_area =
           ps.getD 3 "") ∧
    (extract_folder_context
        ["root", "01.Origination&Dev", "ACES", "file.pdf"] ["root"] =
      { project_category := "ACES",
        main_phase := "01.Origination&Dev",
        sub_category := "",
        specific_area := "",
        folder_hierarchy := "01.Origination&Dev > ACES",
        phase_description := some "Project Development and Origination Phase" }) ∧
    ((extract_folder_context
        ["root", "01.Origination&Dev", "ACES", "file.pdf"]
        ["root"]).phase_description ≠ none) ∧
    (∀ fileParts projParts : PathParts,
       relativeTo fileParts projParts = none →
       extract_folder_context fileParts projParts = unknownFolderContext) := by
  refine ⟨?_, by decide, by decide, ?_⟩
  · intro root ps fn
    have hpre : root.isPrefixOf (root ++ (ps ++ [fn])) = true := by
      rw [List.isPrefixOf_iff_prefix]
      exact List.prefix_append root (ps ++ [fn])
    have hrel : relativeTo (root ++ (ps ++ [fn])) root = some (ps ++ [fn]) := by
      simp [relativeTo, hpre, List.drop_left]
    simp [extract_folder_context, hrel, List.dropLast_concat]
  · intro fileParts projParts hnone
    simp [extract_folder_context, hnone]

/-- Witness for C7: a file outside the project root (path resolution fails)
gets the unknown sentinel mapping; a file two levels below the root gets
its first two components as phase and category. -/
theorem c7_folder_context_witness :
    extract_folder_context ["elsewhere", "file.pdf"] ["root"] =
      unknownFolderContext ∧
    (extract_folder_context
        (["proj"] ++ (["02.Execution", "Budget"] ++ ["x.docx"]))
        ["proj"]).main_phase = "02.Execution" :=
  ⟨c7_folder_context.2.2.2 ["elsewhere", "file.pdf"] ["root"] (by decide),
   (c7_folder_context.1 ["proj"] ["02.Execution", "Budget"] "x.docx").1⟩

/-- Claim C1.  Model switch atomicity: whenever validation fails — the
provider is not in the catalog, or the model is not in the provider list
while the provider is not ollama (the one provider permitting arbitrary
model names), or no credential is configured for the provider —
`switch_model` returns false and the manager state is returned unchanged
(so `get_current_model_info`, the config runtime-override fields and the
client cache are all unmodified); more generally any false return carries
the unchanged state; and a pair passing all three validations returns true. -/
theorem c1_switch_model_atomic (hasOllama : Bool) (s : MMState)
    (provider model : String) :
    (AVAILABLE_MODELS.lookup provider = none →
       switch_model hasOllama s provider model = (false, s)) ∧
    (∀ ms, AVAILABLE_MODELS.lookup provider = some ms →
       ms.contains model = false → provider ≠ "ollama" →
       switch_model hasOllama s provider model = (false, s)) ∧
    (has_api_key hasOllama s.config provider = false →
       switch_model hasOllama s provider model = (false, s)) ∧
    (∀ r, switch_model hasOllama s provider model = (false, r) →
       r = s ∧ get_current_model_info r = get_current_model_info s ∧
       r.config = s.config ∧ r.active_clients = s.active_clients) ∧
    (∀ ms, AVAILABLE_MODELS.lookup provider = some ms →
       (ms.contains model = true ∨ provider = "ollama") →
       has_api_key hasOllama s.config provider = true →
       (switch_model hasOllama s provider model).1 = true) := by
  refine ⟨?_, ?_, ?_, ?_, ?_⟩
  · intro h
    unfold switch_model
    rw [h]
  · intro ms hms hc hp
    unfold switch_model
    rw [hms]
    dsimp only
    rw [if_pos (⟨hc, hp⟩ : ms.contains model = false ∧ provider ≠ "ollama")]
  · intro hk
    unfold switch_model
    cases hlook : AVAILABLE_MODELS.lookup provider with
    | none => rfl
    | some ms =>
      dsimp only
      by_cases hc : ms.contains model = false ∧ provider ≠ "ollama"
      · rw [if_pos hc]
      · rw [if_neg hc, if_pos hk]
  · intro r hr
    have hrs : r = s := by
      unfold switch_model at hr
      cases hlook : AVAILABLE_MODELS.lookup provider with
      | none =>
        rw [hlook] at hr
        dsimp only at hr
        exact (Prod.ext_iff.mp hr).2.symm
      | some ms =>
        rw [hlook] at hr
        dsimp only at hr
        by_cases hc : ms.contains model = false ∧ provider ≠ "ollama"
        · rw [if_pos hc] at hr
          exact (Prod.ext_iff.mp hr).2.symm
        · rw [if_neg hc] at hr
          by_cases hk : has_api_key hasOllama s.config provider = false
          · rw [if_pos hk] at hr
            exact (Prod.ext_iff.mp hr).2.symm
          · rw [if_neg hk] at hr
            have hfb : (true : Bool) = false := (Prod.ext_iff.mp hr).1
            exact Bool.noConfusion hfb
    exact ⟨hrs, by rw [hrs], by rw [hrs], by rw [hrs]⟩
  · intro ms hms hvalid hk
    have hc : ¬(ms.contains model = false ∧ provider ≠ "ollama") := by
      rintro ⟨hfalse, hnp⟩
      rcases hvalid with h | h
      · rw [h] at hfalse
        exact Bool.noConfusion hfalse
      · exact hnp h
    have hk2 : ¬(has_api_key hasOllama s.config provider = false) := by
      simp [hk]
    unfold switch_model
    rw [hms]
    dsimp only
    rw [if_neg hc, if_neg hk2]

/-- Witness for C1: switching to an unknown provider fails and leaves a
concrete manager state untouched; a model missing from a non-ollama catalog
fails the same way; and a valid ollama switch (catalog model, ollama
available) returns true. -/
theorem c1_switch_model_atomic_witness :
    switch_model false (mmInit cfgBase) "provider-x" "bad-model" =
      (false, mmInit cfgBase) ∧
    switch_model false (mmInit cfgBase) "google" "not-a-gemini" =
      (false, mmInit cfgBase) ∧
    (switch_model true (mmInit cfgBase) "ollama" "llama3.1:8b").1 = true :=
  ⟨(c1_switch_model_atomic false (mmInit cfgBase) "provider-x" "bad-model").1
      (by decide),
   (c1_switch_model_atomic false (mmInit cfgBase) "google" "not-a-gemini").2.1
      ["gemini-1.5-flash", "gemini-1.5-pro", "gemini-2.0-flash-exp",
       "gemini-exp-1206"]
      (by decide) (by decide) (by decide),
   (c1_switch_model_atomic true (mmInit cfgBase) "ollama" "llama3.1:8b").2.2.2.2
      ["llama3.1:8b", "llama3.1:70b", "llama3.1:405b",
       "llama3.2:1b", "llama3.2:3b",
       "mixtral:8x7b", "mixtral:8x22b",
       "codellama:7b", "codellama:13b", "codellama:34b",
       "deepseek-coder:6.7b", "deepseek-coder:33b",
       "qwen2.5:7b", "qwen2.5:14b", "qwen2.5:32b",
       "phi3:mini", "phi3:medium",
       "gemma2:2b", "gemma2:9b", "gemma2:27b",
       "mistral:7b", "neural-chat:7b", "orca-mini:3b", "vicuna:7b"]
      (by decide) (Or.inl (by decide)) (by decide)⟩

/-- Claim C2.  Answer error path: whenever the chain invocation raises (the
exception value is not propagated by `answer_question`), the result carries
`error = true`, an answer string equal to the message prefix followed by the
exception text (hence non-empty and containing the exception message), a
source list that enumerates exactly the distinct sources of the input
documents (each once, in the enumeration order of the set), non-empty whenever
the input list is non-empty, and `documents_used` equal to the number of
input documents. -/
theorem c2_answer_error_path (chainInvoke : String → String → Except String String)
    (setOrder : List String → List String) (q : String) (docs : List RDoc)
    (e : String)
    (hperm : (setOrder (collectSources docs)).Perm (collectSources docs))
    (hfail : chainInvoke (contextBlock docs) q = .error e) :
    (answer_question chainInvoke setOrder q docs).error = true ∧
    (answer_question chainInvoke setOrder q docs).answer =
      "Error generating answer: " ++ e ∧
    (answer_question chainInvoke setOrder q docs).answer ≠ "" ∧
    (answer_question chainInvoke setOrder q docs).sources.Perm
      (collectSources docs) ∧
    (∀ x, x ∈ (answer_question chainInvoke setOrder q docs).sources ↔
       ∃ d ∈ docs, docSource d = x) ∧
    (docs ≠ [] → (answer_question chainInvoke setOrder q docs).sources ≠ []) ∧
    (answer_question chainInvoke setOrder q docs).documents_used =
      docs.length := by
  have hres : answer_question chainInvoke setOrder q docs =
      { answer := "Error generating answer: " ++ e,
        sources := setOrder (collectSources docs),
        documents_used := docs.length,
        error := true } := by
    simp only [answer_question]
    rw [hfail]
  rw [hres]
  refine ⟨rfl, rfl, ?_, hperm, ?_, ?_, rfl⟩
  · intro hcontra
    have hlen : ("Error generating answer: " ++ e).length =
        ("" : String).length := congrArg String.length hcontra
    rw [String.length_append] at hlen
    have h1 : ("Error generating answer: ").length = 25 := rfl
    have h2 : ("" : String).length = 0 := rfl
    omega
  · intro x
    rw [hperm.mem_iff, mem_collectSources]
  · intro hdocs hcontra
    have hne := collectSources_ne_nil docs hdocs
    have hc2 : setOrder (collectSources docs) = [] := hcontra
    have hp2 := hperm
    rw [hc2] at hp2
    exact hne hp2.symm.eq_nil

/-- Witness for C2: a concrete chain that always raises a rate-limit error,
one document with one source; the result is error-flagged, counts one
document, and keeps the retrieved source. -/
theorem c2_answer_error_path_witness :
    (answer_question (fun _ _ => Except.error "rate limited") id "q"
        [{ page_content := "t", source := some "/p/a.pdf",
           chunk_index := 0, total_chunks := 1 }]).error = true ∧
    (answer_question (fun _ _ => Except.error "rate limited") id "q"
        [{ page_content := "t", source := some "/p/a.pdf",
           chunk_index := 0, total_chunks := 1 }]).documents_used = 1 ∧
    (answer_question (fun _ _ => Except.error "rate limited") id "q"
        [{ page_content := "t", source := some "/p/a.pdf",
           chunk_index := 0, total_chunks := 1 }]).sources ≠ [] :=
  ⟨(c2_answer_error_path _ id "q" _ "rate limited" (List.Perm.refl _) rfl).1,
   (c2_answer_error_path _ id "q" _ "rate limited" (List.Perm.refl _)
      rfl).2.2.2.2.2.2,
   (c2_answer_error_path _ id "q" _ "rate limited" (List.Perm.refl _)
      rfl).2.2.2.2.2.1 (by decide)⟩

/-- Claim C6, amended.  The sources field of the result contains each
distinct source of the retrieved documents exactly once (it is duplicate
free and its members are exactly the sources occurring in the input); its
order is the enumeration order of the Python set, which is a permutation of
the first-occurrence order but is not guaranteed to equal it. -/
theorem c6_sources_unique (chainInvoke : String → String → Except String String)
    (setOrder : List String → List String) (q : String) (docs : List RDoc)
    (hperm : (setOrder (collectSources docs)).Perm (collectSources docs)) :
    (answer_question chainInvoke setOrder q docs).sources.Nodup ∧
    (∀ x, x ∈ (answer_question chainInvoke setOrder q docs).sources ↔
       ∃ d ∈ docs, docSource d = x) := by
  have hsrc : (answer_question chainInvoke setOrder q docs).sources =
      setOrder (collectSources docs) := by
    simp only [answer_question]
    cases hc : chainInvoke (contextBlock docs) q <;> rfl
  rw [hsrc]
  exact ⟨hperm.nodup_iff.mpr (nodup_collectSources docs),
    fun x => by rw [hperm.mem_iff, mem_collectSources]⟩

/-- Witness for C6 (amended): on a concrete three-document list with two
distinct sources, the resulting source list is duplicate free. -/
theorem c6_sources_unique_witness :
    (answer_question (fun _ _ => Except.ok "ans") id "q"
        docsTwoSources).sources.Nodup :=
  (c6_sources_unique _ id "q" docsTwoSources (List.Perm.refl _)).1

/-- Counterexample for claim C6.  The code converts the `sources` set to a
list with `list(sources)`; CPython enumerates a set of strings in hash-table
order, which the language does not specify and which varies with string
hash randomization — the only guarantee is that each element appears exactly
once, i.e. the enumeration is some permutation of the insertion
(first-occurrence) order.  Taking the admissible enumeration that reverses
the insertion order on a concrete document list whose first-occurrence
order is b.txt then a.txt, the resulting source list is a.txt then b.txt:
not the order in which each source first occurs.  So the claimed display
order is not guaranteed by the code. -/
theorem c6_sources_order_counterexample :
    collectSources docsTwoSources = ["b.txt", "a.txt"] ∧
    (List.reverse (collectSources docsTwoSources)).Perm
      (collectSources docsTwoSources) ∧
    (answer_question (fun _ _ => Except.ok "ans") List.reverse "q"
        docsTwoSources).sources = ["a.txt", "b.txt"] ∧
    (["a.txt", "b.txt"] : List String) ≠ ["b.txt", "a.txt"] :=
  ⟨rfl, List.reverse_perm _, rfl, by decide⟩

/-- Claim C3.  Incremental re-index selection: a file from the scanned tree
is selected by `find_files` iff it matches a supported extension, lies
outside the index storage directory (no `.sage` in its path), and either
force is set, or its path is absent from the metadata record, or the
recorded hash differs from its current content hash.  Consequently a second
run over a tree whose metadata records the current hash of every candidate
selects nothing, and when the recorded hash of exactly one candidate disagrees
with its current hash, exactly that file is selected. -/
theorem c3_incremental_selection (files : List SrcFile)
    (storedMeta : List (String × String)) (force : Bool)
    (h : String → String) :
    (∀ f, f ∈ find_files files storedMeta force h ↔
       f ∈ files ∧ isSupportedFile f.path = true ∧
         strContains f.path ".sage" = false ∧
         (force = true ∨ storedMeta.lookup f.path ≠ some (h f.content))) ∧
    ((∀ f ∈ files, isSupportedFile f.path = true →
        strContains f.path ".sage" = false →
        storedMeta.lookup f.path = some (h f.content)) →
      find_files files storedMeta false h = []) ∧
    (∀ (pre post : List SrcFile) (f0 : SrcFile),
      files = pre ++ f0 :: post →
      isSupportedFile f0.path = true →
      strContains f0.path ".sage" = false →
      storedMeta.lookup f0.path ≠ some (h f0.content) →
      (∀ f ∈ pre ++ post, isSupportedFile f.path = true →
         strContains f.path ".sage" = false →
         storedMeta.lookup f.path = some (h f.content)) →
      find_files files storedMeta false h = [f0]) := by
  refine ⟨mem_find_files files storedMeta force h, ?_, ?_⟩
  · intro hmeta
    rw [List.eq_nil_iff_forall_not_mem]
    intro f hf
    rw [mem_find_files] at hf
    rcases hf with ⟨hmem, hsup, hsage, hcond⟩
    rcases hcond with hforce | hne
    · exact Bool.noConfusion hforce
    · exact hne (hmeta f hmem hsup hsage)
  · intro pre post f0 hfiles hsup hsage hne hrest
    subst hfiles
    have hform : find_files (pre ++ f0 :: post) storedMeta false h =
        (pre ++ f0 :: post).filter (fun f =>
          isSupportedFile f.path && !strContains f.path ".sage"
            && needs_processing false storedMeta h f) := rfl
    have hpred0 : (isSupportedFile f0.path && !strContains f0.path ".sage"
        && needs_processing false storedMeta h f0) = true := by
      rw [Bool.and_eq_true, Bool.and_eq_true]
      refine ⟨⟨hsup, ?_⟩, ?_⟩
      · rw [hsage]
        rfl
      · exact (needs_processing_false_iff storedMeta h f0).mpr hne
    have hprerest : ∀ f ∈ pre ++ post,
        (isSupportedFile f.path && !strContains f.path ".sage"
          && needs_processing false storedMeta h f) = false := by
      intro f hf
      by_cases hs : isSupportedFile f.path = true
      · by_cases hg : strContains f.path ".sage" = false
        · have hl := hrest f hf hs hg
          have hnp : needs_processing false storedMeta h f = false := by
            unfold needs_processing
            rw [hl]
            simp
          simp [hnp]
        · have hg2 : strContains f.path ".sage" = true := by
            cases hx : strContains f.path ".sage"
            · exact absurd hx hg
            · rfl
          simp [hg2]
      · have hs2 : isSupportedFile f.path = false := by
          cases hx : isSupportedFile f.path
          · rfl
          · exact absurd hx hs
        simp [hs2]
    have hcons : List.filter (fun f =>
          isSupportedFile f.path && !strContains f.path ".sage"
            && needs_processing false storedMeta h f) (f0 :: post) =
        f0 :: List.filter (fun f =>
          isSupportedFile f.path && !strContains f.path ".sage"
            && needs_processing false storedMeta h f) post :=
      List.filter_cons_of_pos hpred0
    rw [hform, List.filter_append]
    have hfpre : pre.filter (fun f =>
        isSupportedFile f.path && !strContains f.path ".sage"
          && needs_processing false storedMeta h f) = [] := by
      refine List.filter_eq_nil_iff.mpr ?_
      intro f hf
      rw [hprerest f (List.mem_append.mpr (Or.inl hf))]
      exact Bool.noConfusion
    have hfpost : post.filter (fun f =>
        isSupportedFile f.path && !strContains f.path ".sage"
          && needs_processing false storedMeta h f) = [] := by
      refine List.filter_eq_nil_iff.mpr ?_
      intro f hf
      rw [hprerest f (List.mem_append.mpr (Or.inr hf))]
      exact Bool.noConfusion
    rw [hfpre, hcons, hfpost]
    rfl

/-- Witness for C3: with the metadata recording the current hash of the one
candidate file, nothing is selected; after changing the content of that file (so
the recorded hash disagrees), exactly that file is selected. -/
theorem c3_incremental_selection_witness :
    find_files [{ path := "/p/a.txt", content := "hello" }]
      [("/p/a.txt", "hello")] false id = [] ∧
    find_files [{ path := "/p/a.txt", content := "hello2" }]
      [("/p/a.txt", "hello")] false id =
      [{ path := "/p/a.txt", content := "hello2" }] :=
  ⟨(c3_incremental_selection _ _ false id).2.1 (by decide),
   (c3_incremental_selection _ _ false id).2.2 [] []
      { path := "/p/a.txt", content := "hello2" }
      rfl (by decide) (by decide) (by decide) (by decide)⟩

/-- Claim C9, amended.  The PDF fallback chain: direct extraction is
attempted first and kept when its stripped text reaches the 100-character
threshold; below the threshold the OCR-only extraction replaces it; when
direct extraction raises, the OCR-only fallback is used; when that fallback
also raises, `_process_pdf` yields the empty element list instead of
raising.  `process_file` returns the empty sequence on any raising
format-specific extraction, and on total PDF extraction failure it returns
the empty sequence when no project root argument is supplied — the only
form in which the repository calls it; when a project root is supplied it
instead chunks the synthesized context header (see the counterexample). -/
theorem c9_pdf_fallback_chain :
    (∀ els ocr, shortText els = false → process_pdf (.ok els) ocr = els) ∧
    (∀ els els2, shortText els = true →
       process_pdf (.ok els) (.ok els2) = els2) ∧
    (∀ els msg, shortText els = true →
       process_pdf (.ok els) (.error msg) = []) ∧
    (∀ msg els2, process_pdf (.error msg) (.ok els2) = els2) ∧
    (∀ msg msg2, process_pdf (.error msg) (.error msg2) = []) ∧
    (∀ msg fileParts projParts,
       process_file (.other (.error msg)) fileParts projParts = []) ∧
    (∀ msg msg2 fileParts,
       process_file (.pdf (.error msg) (.error msg2)) fileParts none = []) ∧
    (∀ msg msg2 fileParts pp,
       process_file (.pdf (.error msg) (.error msg2)) fileParts (some pp) =
         splitShortText (contextHeader (extract_folder_context fileParts pp)
           (fileParts.getLastD ""))) := by
  refine ⟨?_, ?_, ?_, ?_, ?_, ?_, ?_, ?_⟩
  · intro els ocr hshort
    simp [process_pdf, hshort]
  · intro els els2 hshort
    simp [process_pdf, hshort]
  · intro els msg hshort
    simp [process_pdf, hshort]
  · intro msg els2
    rfl
  · intro msg msg2
    rfl
  · intro msg fileParts projParts
    rfl
  · intro msg msg2 fileParts
    rfl
  · intro msg msg2 fileParts pp
    show splitShortText
        (contextHeader (extract_folder_context fileParts pp)
          (fileParts.getLastD "") ++ String.intercalate "\n\n" []) =
      splitShortText (contextHeader (extract_folder_context fileParts pp)
        (fileParts.getLastD ""))
    rw [show String.intercalate "\n\n" ([] : List String) = "" from rfl,
      String.append_empty]

set_option maxRecDepth 4000 in
set_option maxHeartbeats 1000000 in
/-- Witness for C9 (amended): a direct extraction whose text passes the
length threshold is kept unchanged, and one below the threshold is replaced
by the OCR extraction. -/
theorem c9_pdf_fallback_chain_witness :
    process_pdf
        (.ok ["This sentence is repeated to exceed the plausibility threshold. This sentence is repeated to exceed it."])
        (.error "ocr never invoked") =
      ["This sentence is repeated to exceed the plausibility threshold. This sentence is repeated to exceed it."] ∧
    process_pdf (.ok ["short"]) (.ok ["ocr text"]) = ["ocr text"] :=
  ⟨c9_pdf_fallback_chain.1
      ["This sentence is repeated to exceed the plausibility threshold. This sentence is repeated to exceed it."]
      (.error "ocr never invoked") (by decide),
   c9_pdf_fallback_chain.2.1 ["short"] ["ocr text"] (by decide)⟩

set_option maxRecDepth 4000 in
set_option maxHeartbeats 1000000 in
/-- Counterexample for claim C9.  When both PDF extraction attempts raise,
`_process_pdf` swallows the exceptions and returns no elements, so the
outer handler of `process_file` is never triggered; with a project root
supplied, the non-empty synthesized context header is then chunked, and
`process_file` returns one header-only chunk — not an empty sequence as the
claim states for irrecoverable extraction failure. -/
theorem c9_counterexample :
    process_file (.pdf (.error "bad xref") (.error "ocr failed"))
        ["root", "01.Origination&Dev", "scan.pdf"] (some ["root"]) =
      ["Document Context:\n- Project Phase: Project Development and Origination Phase\n- Category: \n- Location: 01.Origination&Dev\n- File: scan.pdf\n\nContent:"] ∧
    process_file (.pdf (.error "bad xref") (.error "ocr failed"))
        ["root", "01.Origination&Dev", "scan.pdf"] (some ["root"]) ≠ [] := by
  refine ⟨by decide, by decide⟩
